import Mathlib

/-!
Verification development for the softfocus bokeh dashboard
(src/softfocus/main.py). The definitions below are a shallow embedding of
the catalog-filter, tab/session, export and cleanup logic of the
`SoftFocus` class; each definition's doc comment points at the source
lines it embeds. Times are modelled as exact integers/rationals in place
of Python floats, and strings as Lean `String`/`List Char`.
-/

set_option autoImplicit false

namespace Softfocus

/-! ## String helpers (Python primitives used by the source) -/

/-- Left/right strip of space characters, as Python `str.strip()` does for
the plain-space inputs relevant here (`int(i)` strips its argument). -/
def stripSpaces (s : List Char) : List Char :=
  ((s.dropWhile (fun c => decide (c = ' '))).reverse.dropWhile
    (fun c => decide (c = ' '))).reverse

/-- Value of a nonempty all-digit character list, else `none`. -/
def digitsVal (ds : List Char) : Option Nat :=
  if ds = [] then none
  else if ds.all Char.isDigit then
    some (ds.foldl (fun acc c => acc * 10 + (c.toNat - 48)) 0)
  else none

/-- Python `int(str)` on plain decimal literals: optional sign, decimal
digits, surrounding spaces allowed; anything else raises, modelled as
`none`. -/
def pyInt (s : List Char) : Option Int :=
  match stripSpaces s with
  | '-' :: ds => (digitsVal ds).map (fun n => -(n : Int))
  | '+' :: ds => (digitsVal ds).map (fun n => (n : Int))
  | ds => (digitsVal ds).map (fun n => (n : Int))

/-- Python `str.split('..')`: split on non-overlapping occurrences of the
two-character separator `..`, scanning left to right (main.py line 379). -/
def splitDots : List Char → List (List Char)
  | [] => [[]]
  | '.' :: '.' :: rest => [] :: splitDots rest
  | c :: rest =>
    match splitDots rest with
    | [] => [[c]]
    | g :: gs => (c :: g) :: gs

/-- `startsWith needle hay`: the first list is an initial segment of the
second (plain character-by-character comparison). -/
def startsWith : List Char → List Char → Bool
  | [], _ => true
  | _ :: _, [] => false
  | c :: nd, d :: hy => decide (c = d) && startsWith nd hy

/-- Plain substring containment: `needle` occurs contiguously in `hay`. -/
def containsSub (needle : List Char) : List Char → Bool
  | [] => startsWith needle []
  | c :: rest => startsWith needle (c :: rest) || containsSub needle rest

/-- Python `str.endswith(suffix)` (main.py line 669). -/
def pyEndsWith (s suffix : String) : Bool :=
  startsWith suffix.data.reverse s.data.reverse

/-! ## Python `re` fragment

`pandas.Series.str.contains` (main.py line 395) interprets its argument
as a regular expression (`re.search`). The fragment below models the
Python syntax actually exercisable through that text box for patterns
built from literal characters, `.`, and the quantifiers `*`, `+`, `?`;
any other metacharacter is treated as a compile failure (`none`), which
the source catches in its `except` branch (line 397). -/

/-- Atom base: a literal character or the `.` wildcard. -/
inductive RBase where
  | lit (c : Char)
  | dot
  deriving DecidableEq

/-- Quantifier attached to an atom. -/
inductive RQuant where
  | one
  | star
  | plus
  | opt
  deriving DecidableEq

/-- A parsed pattern is a list of quantified atoms. -/
abbrev RAtom := RBase × RQuant

/-- Characters that are special in Python `re` syntax. -/
def isMetaChar (c : Char) : Bool :=
  decide (c = '.') || decide (c = '*') || decide (c = '+') ||
  decide (c = '?') || decide (c = '\\') || decide (c = '|') ||
  decide (c = '(') || decide (c = ')') || decide (c = '[') ||
  decide (c = ']') || decide (c = '^') || decide (c = '$') ||
  decide (c = '\x7b') || decide (c = '\x7d')

/-- Quantifier denoted by a character, if any. -/
def quantOf? (q : Char) : Option RQuant :=
  if q = '*' then some RQuant.star
  else if q = '+' then some RQuant.plus
  else if q = '?' then some RQuant.opt
  else none

/-- Base atom denoted by a character at atom position: `.` is the
wildcard, any other metacharacter is a parse failure, the rest are
literals. -/
def baseOf? (c : Char) : Option RBase :=
  if c = '.' then some RBase.dot
  else if isMetaChar c then none
  else some (RBase.lit c)

/-- Fuelled parser for the supported Python `re` fragment; each step
consumes at least one character, so `length + 1` fuel is always
enough. -/
def pyReParseF : Nat → List Char → Option (List RAtom)
  | 0, _ => none
  | Nat.succ _, [] => some []
  | Nat.succ n, c :: rest =>
    match baseOf? c with
    | none => none
    | some b =>
      match rest with
      | [] => some [(b, RQuant.one)]
      | q :: rest' =>
        match quantOf? q with
        | some qt => (pyReParseF n rest').map (fun p => (b, qt) :: p)
        | none => (pyReParseF n rest).map (fun p => (b, RQuant.one) :: p)

/-- Parse the supported Python `re` fragment; `none` models `re.error`. -/
def pyReParse (l : List Char) : Option (List RAtom) :=
  pyReParseF (l.length + 1) l

/-- Does a base atom match one character (`.` excludes newline)? -/
def baseMatch : RBase → Char → Bool
  | RBase.lit a, c => decide (a = c)
  | RBase.dot, c => decide (c ≠ '\n')

/-- Fuelled matcher: does the pattern match some initial segment of the
string?  Each step consumes one unit of fuel, and every step shortens
either the pattern or the string, so `pattern length + string length + 1`
fuel is always enough. -/
def matchPreF : Nat → List RAtom → List Char → Bool
  | 0, _, _ => false
  | Nat.succ _, [], _ => true
  | Nat.succ n, (b, RQuant.one) :: p, s =>
    match s with
    | [] => false
    | c :: s' => baseMatch b c && matchPreF n p s'
  | Nat.succ n, (b, RQuant.opt) :: p, s =>
    matchPreF n p s ||
      (match s with
       | [] => false
       | c :: s' => baseMatch b c && matchPreF n p s')
  | Nat.succ n, (b, RQuant.star) :: p, s =>
    matchPreF n p s ||
      (match s with
       | [] => false
       | c :: s' => baseMatch b c && matchPreF n ((b, RQuant.star) :: p) s')
  | Nat.succ n, (b, RQuant.plus) :: p, s =>
    match s with
    | [] => false
    | c :: s' => baseMatch b c && matchPreF n ((b, RQuant.star) :: p) s'

/-- The pattern matches some initial segment of `s`. -/
def matchPre (p : List RAtom) (s : List Char) : Bool :=
  matchPreF (p.length + s.length + 1) p s

/-- Python `re.search` over the fragment: the pattern matches at some
position of the string. -/
def reSearch (p : List RAtom) : List Char → Bool
  | [] => matchPre p []
  | c :: rest => matchPre p (c :: rest) || reSearch p rest

/-- The pattern a metacharacter-free text parses to: each character is a
one-shot literal atom. -/
def litPattern (l : List Char) : List RAtom :=
  l.map (fun c => (RBase.lit c, RQuant.one))

/-- A character with no special regular-expression meaning. -/
def plainChar (c : Char) : Bool := !isMetaChar c

/-! ## Catalog and the main-table filter (`update`, main.py 366-402)

`_create_folder` (lines 197-228) builds `csv_dic` with keys `CSV`,
`size (kB)`, `last modification`, `number of columns` and turns it into
the DataFrame `self.df`; sizes and dates are modelled as integers. -/

/-- The catalog DataFrame: one entry per row position across the four
columns built in `_create_folder`. -/
structure Catalog where
  csv : List String
  sizeKB : List Int
  lastMod : List Int
  numCols : List Int
  deriving DecidableEq

/-- A pandas column value as used by the filter code. -/
inductive PdCol where
  | strC (vals : List String)
  | intC (vals : List Int)
  deriving DecidableEq

/-- Column lookup `df[key]`: only the four keys of `csv_dic` exist, any
other key raises `KeyError`, modelled as `none`. In particular the key
`"size(kB)"` used at main.py lines 383-387 is NOT a column: the column
built at line 205 is named `"size (kB)"` (with a space). -/
def Catalog.col (c : Catalog) (key : String) : Option PdCol :=
  if key = "CSV" then some (PdCol.strC c.csv)
  else if key = "size (kB)" then some (PdCol.intC c.sizeKB)
  else if key = "last modification" then some (PdCol.intC c.lastMod)
  else if key = "number of columns" then some (PdCol.intC c.numCols)
  else none

/-- The hint text the size box is reset to on invalid input
(main.py lines 389 and 392). -/
def resetMsg : String := "fmt: \x27100\x27 or \x2798..102\x27"

/-- Pointwise conjunction of two boolean masks (`filt &= ...`). -/
def andFilt (a b : List Bool) : List Bool :=
  List.zipWith (fun x y => x && y) a b

/-- Date-range mask (main.py lines 373-376): last-modification date
within the slider's inclusive range. -/
def dateFilt (c : Catalog) (dlo dhi : Int) : List Bool :=
  c.lastMod.map (fun d => decide (dlo ≤ d ∧ d ≤ dhi))

/-- Size-spec step of `update` (main.py lines 378-392): split the input
on `..`, convert each piece with `int`, then restrict by an inclusive
min/max range (two values) or by equality (one value); any other count
resets the text box. The whole block sits in a `try`: a `ValueError`
from `int` or the `KeyError` from the misspelled column key `"size(kB)"`
falls into `except`, which keeps the mask and resets the text box.
Returns the new mask and the new text-box content. -/
def sizeFiltStep (c : Catalog) (input : String) (filt : List Bool) :
    List Bool × String :=
  match (splitDots input.data).mapM pyInt with
  | none => (filt, resetMsg)
  | some szfilt =>
    match szfilt with
    | [a, b] =>
      match c.col "size(kB)" with
      | some (PdCol.intC sizes) =>
        (andFilt filt
          (sizes.map (fun v => decide (min a b ≤ v ∧ v ≤ max a b))), input)
      | _ => (filt, resetMsg)
    | [a] =>
      match c.col "size(kB)" with
      | some (PdCol.intC sizes) =>
        (andFilt filt (sizes.map (fun v => decide (v = a))), input)
      | _ => (filt, resetMsg)
    | _ => (filt, resetMsg)

/-- Name step of `update` (main.py lines 394-397):
`filt &= df['CSV'].str.contains(text, na=False)` with the text read as a
regular expression; a regex compile error falls into `except`, which
keeps the mask and clears the text box. -/
def nameFiltStep (c : Catalog) (text : String) (filt : List Bool) :
    List Bool × String :=
  match pyReParse text.data with
  | none => (filt, "")
  | some pat =>
    (andFilt filt (c.csv.map (fun n => reSearch pat n.data)), text)

/-- Keep the rows selected by the mask, preserving order
(`current = df[filt]`, main.py line 399); only the CSV names matter for
the claims. -/
def applyFilt (names : List String) (mask : List Bool) : List String :=
  (names.zip mask).filterMap (fun p => if p.2 then some p.1 else none)

/-- The pieces of `SoftFocus` state touched by the table callbacks:
the selected csv (`self.sel_csv`), the Plot button's `disabled` flag,
the CSV column of `self.main_source.data`, and the two filter text
boxes. -/
structure AppState where
  selCsv : Option String
  plotDisabled : Bool
  viewCSVs : List String
  sizeText : String
  nameText : String
  deriving DecidableEq

/-- The `update` callback (main.py lines 366-402): recompute the filter
mask (date, then size, then name) and replace `main_source.data` with
the filtered rows. It does not touch `self.sel_csv` nor the Plot
button. -/
def update (c : Catalog) (dlo dhi : Int) (st : AppState) : AppState :=
  let f0 := dateFilt c dlo dhi
  let r1 := sizeFiltStep c st.sizeText f0
  let r2 := nameFiltStep c st.nameText r1.1
  { st with
      viewCSVs := applyFilt c.csv r2.1
      sizeText := r1.2
      nameText := r2.2 }

/-- The `sel_table` callback (main.py lines 352-363): with a nonempty
index list, enable the Plot button and record the csv at the first
selected index of the displayed table; with an empty one, clear the
selection and disable the button. -/
def sel_table (sels : List Nat) (st : AppState) : AppState :=
  match sels with
  | [] => { st with selCsv := none, plotDisabled := true }
  | i :: _ => { st with plotDisabled := false, selCsv := st.viewCSVs.get? i }

/-! ## Plot tabs (`add_plot_tab`, main.py 405-507) -/

/-- Tab-related pieces of `SoftFocus` state: the tab names
(`self.tabs.tabs`, the main tab `"CSVs"` first, plot tabs named by their
csv file) and the per-tab loaded data (`self.plot_dfs`, here the loaded
column names keyed by csv file). -/
structure TabState where
  tabs : List String
  plotDfs : List (String × List String)
  deriving DecidableEq

/-- Assignment `self.plot_dfs[self.sel_csv] = plot_df` on the dict,
overwriting an existing key. -/
def insertAssoc (k : String) (v : List String) :
    List (String × List String) → List (String × List String)
  | [] => [(k, v)]
  | (k', v') :: rest =>
    if k' = k then (k, v) :: rest else (k', v') :: insertAssoc k v rest

/-- Default axis widgets of a new plot tab (main.py lines 425-433):
`x_sel` takes `cols[0]`, `y_sel` takes `cols[1]`, `y_sel2` takes the
sentinel `"None"`. With fewer than two columns the indexing raises
`IndexError`, modelled as `none`. -/
def defaultAxes (cols : List String) : Option (String × String × String) :=
  match cols with
  | c0 :: c1 :: _ => some (c0, c1, "None")
  | _ => none

/-- The `add_plot_tab` callback (main.py lines 405-507). With no
selection it returns without touching the tabs (lines 413-415; the
`sel_table(None, None, None)` call re-reads the table selection and is
modelled as leaving these fields unchanged). Otherwise it loads the
csv's columns, stores them in `plot_dfs` (line 423), builds the axis
widgets — where `cols[1]` raises `IndexError` for a short table, caught
by `_wait_message_decorator` — and only then appends a new tab named
after the csv (line 506). There is no check for an already-open tab of
the same name. -/
def add_plot_tab (loadCols : String → List String) (selCsv : Option String)
    (st : TabState) : TabState × Except Unit Unit :=
  match selCsv with
  | none => (st, Except.ok ())
  | some csv =>
    let cols := loadCols csv
    let st' : TabState := { st with plotDfs := insertAssoc csv cols st.plotDfs }
    match defaultAxes cols with
    | some _ => ({ st' with tabs := st'.tabs ++ [csv] }, Except.ok ())
    | none => (st', Except.error ())

/-- Status text produced by `_wait_message_decorator`
(main.py lines 311-340): green `ready.` after a normal return, a red
error text when the wrapped callback raised. -/
inductive UiStatus where
  | ready
  | errorShown
  deriving DecidableEq

/-- Status shown after a decorated callback finishes. -/
def waitStatus : Except Unit Unit → UiStatus
  | Except.ok _ => UiStatus.ready
  | Except.error _ => UiStatus.errorShown

/-! ## Export (`download`, main.py 633-657) -/

/-- The artifact path for an owner session
(main.py line 646: `session_id + '_output.xlsx'`). -/
def artifactName (sessionId : String) : String :=
  sessionId ++ "_output.xlsx"

/-- The `download` callback's effect on the uploads directory
(main.py lines 643-654), the directory modelled as the finite set of its
file names: if the owner's artifact path exists it is removed (line
647-648), then the spreadsheet is written at that same path. -/
def download (sessionId : String) (fs : Finset String) : Finset String :=
  insert (artifactName sessionId) (fs.erase (artifactName sessionId))

/-- Columns of `ColumnDataSource(plot_df)` (main.py line 545): bokeh
materializes the DataFrame's index as a column named `index` next to
every column of the frame. `download` then rebuilds a frame from the
glyph's full data source (line 642: `pd.DataFrame(ly.data_source.data)`)
and writes it to the spreadsheet (line 652), so these are exactly the
exported columns. -/
def exportedCols (dfCols : List String) : List String :=
  "index" :: dfCols

/-- Version-token update on the download button (main.py lines 656-657):
`tags = [tags[0] + np.random.choice([-1, 1])]`; the drawn delta is an
explicit argument here. -/
def flipTag (tag delta : Int) : Int := tag + delta

/-! ## Cleanup (`_delete_excess_xlsx`, main.py 661-670) -/

/-- File age in hours used by the cleanup pass
(main.py line 668: `(now - getatime(fpath)) / 3600`); times in seconds,
exact rational division in place of float division. -/
def fileAge (now atime : Int) : ℚ := ((now - atime : Int) : ℚ) / 3600

/-- Deletion test of the cleanup pass (main.py line 669):
age above 24 hours and the name ends with `output.xlsx`. -/
def shouldDelete (now : Int) (f : String × Int) : Bool :=
  decide (24 < fileAge now f.2) && pyEndsWith f.1 "output.xlsx"

/-- One `_delete_excess_xlsx` pass over the uploads directory, modelled
as the list of (file name, last-access time) pairs: every file whose
deletion test holds is removed, the others are kept. -/
def delete_excess_xlsx (now : Int) (files : List (String × Int)) :
    List (String × Int) :=
  files.filter (fun f => !shouldDelete now f)

/-- Modelled from the spec (section 6, export file naming): a name
matches the generated-artifact naming convention exactly when it is
`sessionId ++ "_output.xlsx"` for some owner session id, i.e. ends with
`_output.xlsx`. -/
def matchesArtifactConvention (name : String) : Bool :=
  pyEndsWith name "_output.xlsx"

/-! ## Startup guard (`_create_folder`, main.py 197-211) -/

/-- The `csv_dic` dictionary as built at main.py lines 204-208, right
before the guard at line 209: the `CSV` key holds the listed csv file
names, the other three keys still hold empty lists. Only the keys
matter for the guard, which takes `len` of the dict itself. -/
def csvDic (csvFiles : List String) : List (String × List String) :=
  [("CSV", csvFiles), ("size (kB)", []), ("last modification", []),
   ("number of columns", [])]

/-- The startup guard at main.py lines 209-211:
`if len(csv_dic) < 1: sys.exit(0)` — `len` of a dict is its number of
keys. Returns whether the process exits. -/
def create_folder_exits (csvFiles : List String) : Bool :=
  decide ((csvDic csvFiles).length < 1)

/-! ## Concrete fixtures used by the claim theorems -/

/-- Two-row demo catalog: both files dated day 0, sizes 100 and 250 kB,
two columns each. -/
def demoCatalog : Catalog :=
  { csv := ["a.csv", "b.csv"], sizeKB := [100, 250],
    lastMod := [0, 0], numCols := [2, 2] }

/-- One-row demo catalog used by the name-filter counterexample. -/
def demoCatalogX : Catalog :=
  { csv := ["x.csv"], sizeKB := [1], lastMod := [0], numCols := [2] }

/-- Column loader for the tab examples: every csv loads two columns. -/
def demoLoad : String → List String := fun _ => ["t", "v"]

/-! ## Lemmas about the `re` fragment on metacharacter-free patterns -/

/-- With enough fuel, the literal pattern of `l` matches an initial
segment of `s` exactly when `l` is an initial segment of `s`. -/
theorem matchPreF_lit (l : List Char) :
    ∀ (s : List Char) (n : Nat), l.length ≤ n →
      matchPreF (n + 1) (litPattern l) s = startsWith l s := by
  induction l with
  | nil => intro s n _; simp [litPattern, matchPreF, startsWith]
  | cons c l ih =>
    intro s n hn
    cases s with
    | nil => simp [litPattern, matchPreF, startsWith]
    | cons d s' =>
      cases n with
      | zero => simp [List.length_cons] at hn
      | succ m =>
        have hm : l.length ≤ m := by
          simp only [List.length_cons] at hn; omega
        have hrec := ih s' m hm
        simp only [litPattern] at hrec ⊢
        simp [matchPreF, startsWith, baseMatch, hrec]

/-- The literal pattern of `l` matches an initial segment of `s` exactly
when `l` is one. -/
theorem matchPre_lit (l s : List Char) :
    matchPre (litPattern l) s = startsWith l s := by
  have h : (litPattern l).length = l.length := by simp [litPattern]
  rw [matchPre, h]
  exact matchPreF_lit l s (l.length + s.length) (Nat.le_add_right _ _)

/-- Searching for a metacharacter-free pattern is plain substring
containment. -/
theorem reSearch_lit (l : List Char) :
    ∀ s, reSearch (litPattern l) s = containsSub l s := by
  intro s
  induction s with
  | nil => simp [reSearch, containsSub, matchPre_lit]
  | cons c rest ih => simp [reSearch, containsSub, matchPre_lit, ih]

/-- With enough fuel, a text of plain characters parses to its literal
pattern. -/
theorem pyReParseF_plain (l : List Char) :
    ∀ (n : Nat), l.length ≤ n → l.all plainChar = true →
      pyReParseF (n + 1) l = some (litPattern l) := by
  induction l with
  | nil => intro n _ _; simp [pyReParseF, litPattern]
  | cons c rest ih =>
    intro n hn hall
    cases n with
    | zero => simp [List.length_cons] at hn
    | succ k =>
      simp only [List.all_cons, Bool.and_eq_true] at hall
      obtain ⟨hc, hrest⟩ := hall
      have hmeta : isMetaChar c = false := by
        simpa [plainChar] using hc
      have hdot : ¬(c = '.') := by
        intro h; subst h; simp [isMetaChar] at hmeta
      have hbase : baseOf? c = some (RBase.lit c) := by
        simp [baseOf?, hdot, hmeta]
      cases rest with
      | nil => simp [pyReParseF, hbase, litPattern]
      | cons q rest' =>
        have hqplain : plainChar q = true := by
          simp only [List.all_cons, Bool.and_eq_true] at hrest
          exact hrest.1
        have hstar : ¬(q = '*') := by
          intro h; rw [h] at hqplain; simp [plainChar, isMetaChar] at hqplain
        have hplus : ¬(q = '+') := by
          intro h; rw [h] at hqplain; simp [plainChar, isMetaChar] at hqplain
        have hopt : ¬(q = '?') := by
          intro h; rw [h] at hqplain; simp [plainChar, isMetaChar] at hqplain
        have hquant : quantOf? q = none := by
          simp [quantOf?, hstar, hplus, hopt]
        have hlen : (q :: rest').length ≤ k := by
          simp only [List.length_cons] at hn ⊢; omega
        have hrec := ih k hlen hrest
        unfold pyReParseF
        simp only [hbase, hquant, hrec, Option.map]
        simp [litPattern]

/-- A text of plain characters parses to its literal pattern. -/
theorem pyReParse_plain {l : List Char} (h : l.all plainChar = true) :
    pyReParse l = some (litPattern l) :=
  pyReParseF_plain l l.length (Nat.le_refl _) h

/-! ## Lemmas about suffixes -/

/-- A list is an initial segment of itself followed by anything. -/
theorem startsWith_self_append (l t : List Char) :
    startsWith l (l ++ t) = true := by
  induction l with
  | nil => rfl
  | cons c l ih => simp [startsWith, ih]

/-- Every generated artifact name passes the cleanup pass's
`endswith('output.xlsx')` test. -/
theorem artifactName_pyEndsWith (sid : String) :
    pyEndsWith (artifactName sid) "output.xlsx" = true := by
  have h2 : "_output.xlsx".data = '_' :: "output.xlsx".data := by decide
  have h : (artifactName sid).data.reverse
      = "output.xlsx".data.reverse ++ ('_' :: sid.data.reverse) := by
    simp [artifactName, String.data_append, h2, List.reverse_append]
  rw [pyEndsWith, h]
  exact startsWith_self_append _ _

/-! ## Claim theorems -/

/-- C1: requesting a plot session twice for the same dataset identifier
is claimed to yield exactly one PlotSession and one tab. The code
disagrees: `add_plot_tab` appends a new tab unconditionally, so opening
`a.csv` twice leaves two tabs named `a.csv` (and re-loads the data both
times). This theorem evaluates the embedded callback at that failing
input. -/
theorem add_plot_tab_duplicates_tabs :
    ((add_plot_tab demoLoad (some "a.csv")
        { tabs := ["CSVs"], plotDfs := [] }).1).tabs = ["CSVs", "a.csv"]
    ∧ ((add_plot_tab demoLoad (some "a.csv")
        ((add_plot_tab demoLoad (some "a.csv")
          { tabs := ["CSVs"], plotDfs := [] }).1)).1).tabs
        = ["CSVs", "a.csv", "a.csv"]
    ∧ ((add_plot_tab demoLoad (some "a.csv")
        ((add_plot_tab demoLoad (some "a.csv")
          { tabs := ["CSVs"], plotDfs := [] }).1)).1).tabs.count "a.csv" = 2 := by
  decide

/-- C9: a catalog source with zero matching csv files is claimed to be
startup-fatal (process exits). The code disagrees: the guard
`len(csv_dic) < 1` measures the number of dict keys, which is always 4,
so `sys.exit` is never reached — not even for an empty file list. -/
theorem create_folder_guard_never_fires :
    create_folder_exits [] = false
    ∧ (∀ csvFiles : List String, create_folder_exits csvFiles = false) := by
  exact ⟨rfl, fun _ => rfl⟩

/-- C10: `add_plot_tab` assumes at least two columns: with exactly one
loaded column the `cols[1]` indexing fails before any tab is appended
and the decorator surfaces an error status, while with two or more
columns the default axis assignment is x = first column, y-primary =
second column, y-secondary = the sentinel `"None"`, and the tab is
appended. -/
theorem add_plot_tab_needs_second_column (st : TabState) (d : String)
    (loadCols : String → List String) :
    ((loadCols d).length = 1 →
      add_plot_tab loadCols (some d) st
        = ({ st with plotDfs := insertAssoc d (loadCols d) st.plotDfs },
           Except.error ())
      ∧ (add_plot_tab loadCols (some d) st).1.tabs = st.tabs
      ∧ waitStatus (add_plot_tab loadCols (some d) st).2 = UiStatus.errorShown)
    ∧ (∀ c0 c1 rest, loadCols d = c0 :: c1 :: rest →
        defaultAxes (loadCols d) = some (c0, c1, "None")
        ∧ add_plot_tab loadCols (some d) st
          = ({ tabs := st.tabs ++ [d],
               plotDfs := insertAssoc d (loadCols d) st.plotDfs },
             Except.ok ())) := by
  constructor
  · intro h1
    rcases hL : loadCols d with _ | ⟨c, tl⟩
    · rw [hL] at h1; simp at h1
    · rcases tl with _ | ⟨c2, tl2⟩
      · simp [add_plot_tab, hL, defaultAxes, waitStatus]
      · rw [hL] at h1; simp [List.length_cons] at h1
  · intro c0 c1 rest hL
    simp [add_plot_tab, hL, defaultAxes]

/-- C10 witness: a one-column table yields no tab, a two-column table
gets the default axes (x = first, y = second, y2 = `"None"`). -/
theorem add_plot_tab_needs_second_column_witness :
    (add_plot_tab (fun _ => ["only"]) (some "a.csv")
        { tabs := ["CSVs"], plotDfs := [] }).1.tabs = ["CSVs"]
    ∧ defaultAxes ((fun _ => ["t", "v"]) "b.csv") = some ("t", "v", "None") :=
  ⟨((add_plot_tab_needs_second_column { tabs := ["CSVs"], plotDfs := [] }
      "a.csv" (fun _ => ["only"])).1 (by decide)).2.1,
   ((add_plot_tab_needs_second_column { tabs := ["CSVs"], plotDfs := [] }
      "b.csv" (fun _ => ["t", "v"])).2 "t" "v" [] rfl).1⟩

/-- C2: recomputing the filtered view is claimed to reset the Selection
to none and disable plot-opening whenever the selected dataset drops out
of the view. The code disagrees: `update` never touches `self.sel_csv`
nor the Plot button (first conjunct, for every state), and concretely,
after selecting `a.csv` and filtering the name down to `b`, the view no
longer contains `a.csv` yet the selection still holds it and the button
stays enabled. -/
theorem update_keeps_stale_selection :
    (∀ (c : Catalog) (dlo dhi : Int) (st : AppState),
        (update c dlo dhi st).selCsv = st.selCsv
        ∧ (update c dlo dhi st).plotDisabled = st.plotDisabled)
    ∧ ((sel_table [0]
          { selCsv := none, plotDisabled := true,
            viewCSVs := ["a.csv", "b.csv"], sizeText := "",
            nameText := "b" }).selCsv = some "a.csv")
    ∧ ((update demoCatalog 0 1 (sel_table [0]
          { selCsv := none, plotDisabled := true,
            viewCSVs := ["a.csv", "b.csv"], sizeText := "",
            nameText := "b" })).viewCSVs = ["b.csv"])
    ∧ ¬("a.csv" ∈ (update demoCatalog 0 1 (sel_table [0]
          { selCsv := none, plotDisabled := true,
            viewCSVs := ["a.csv", "b.csv"], sizeText := "",
            nameText := "b" })).viewCSVs)
    ∧ ((update demoCatalog 0 1 (sel_table [0]
          { selCsv := none, plotDisabled := true,
            viewCSVs := ["a.csv", "b.csv"], sizeText := "",
            nameText := "b" })).selCsv = some "a.csv")
    ∧ ((update demoCatalog 0 1 (sel_table [0]
          { selCsv := none, plotDisabled := true,
            viewCSVs := ["a.csv", "b.csv"], sizeText := "",
            nameText := "b" })).plotDisabled = false) := by
  refine ⟨fun c dlo dhi st => ⟨rfl, rfl⟩, ?_, ?_, ?_, ?_, ?_⟩ <;> decide

/-- C3: the size spec `"100"` is claimed to restrict the view to
datasets of size exactly 100 (and `"50..10"` to the range [10, 50]).
The code disagrees: the filter reads `df['size(kB)']` while the column
built in `_create_folder` is named `'size (kB)'`, so every size input
raises `KeyError` inside the `try`, the mask is left unchanged and the
text box is reset — the size spec never restricts anything (first
conjunct). Concretely, on a catalog with sizes 100 and 250 the input
`"100"` keeps both rows. -/
theorem size_filter_never_applied :
    (∀ (c : Catalog) (input : String) (filt : List Bool),
        sizeFiltStep c input filt = (filt, resetMsg))
    ∧ demoCatalog.sizeKB = [100, 250]
    ∧ (update demoCatalog 0 1
          { selCsv := none, plotDisabled := true, viewCSVs := [],
            sizeText := "100", nameText := "" }).viewCSVs
        = ["a.csv", "b.csv"]
    ∧ (update demoCatalog 0 1
          { selCsv := none, plotDisabled := true, viewCSVs := [],
            sizeText := "100", nameText := "" }).sizeText = resetMsg := by
  refine ⟨?_, rfl, by decide, by decide⟩
  intro c input filt
  have hcol : c.col "size(kB)" = none := rfl
  unfold sizeFiltStep
  cases h : (splitDots input.data).mapM pyInt with
  | none => rfl
  | some szfilt =>
    match szfilt with
    | [] => rfl
    | [a] => simp [hcol]
    | [a, b] => simp [hcol]
    | a :: b :: c' :: t => rfl

/-- C8 counterexample: the name filter is claimed to be plain substring
containment, but `str.contains` reads the text as a regular expression:
with text `x+` the dataset `x.csv` passes the filter although `x+` is
not a substring of `x.csv`. -/
theorem name_filter_regex_counterexample :
    nameFiltStep demoCatalogX "x+" [true] = ([true], "x+")
    ∧ containsSub "x+".data "x.csv".data = false := by
  decide

/-- C8 amended: the name filter applies the entered text as a Python
regular expression (case-sensitive search). For text free of regex
metacharacters this coincides with plain substring containment, and the
empty text matches every dataset. -/
theorem name_filter_plain_text_is_substring (text : String)
    (h : text.data.all plainChar = true) :
    pyReParse text.data = some (litPattern text.data)
    ∧ (∀ name : String,
        reSearch (litPattern text.data) name.data
          = containsSub text.data name.data)
    ∧ (∀ (c : Catalog) (filt : List Bool),
        nameFiltStep c text filt
          = (andFilt filt
              (c.csv.map (fun n => containsSub text.data n.data)), text))
    ∧ (∀ s : List Char, containsSub [] s = true) := by
  have hp := pyReParse_plain h
  refine ⟨hp, fun name => reSearch_lit _ _, fun c filt => ?_, fun s => ?_⟩
  · unfold nameFiltStep
    rw [hp]
    simp [reSearch_lit]
  · cases s <;> simp [containsSub, startsWith]

/-- C8 witness: the metacharacter-free text `abc` parses to its literal
pattern and filters `demoCatalog` by substring containment. -/
theorem name_filter_plain_text_is_substring_witness :
    "abc".data.all plainChar = true
    ∧ nameFiltStep demoCatalog "abc" [true, true]
        = (andFilt [true, true]
            (demoCatalog.csv.map
              (fun n => containsSub "abc".data n.data)), "abc") :=
  ⟨by decide,
   (name_filter_plain_text_is_substring "abc" (by decide)).2.2.1
     demoCatalog [true, true]⟩

/-- C4 counterexample: the export is claimed to contain exactly the x
and y-primary columns of the plot. The code instead serializes the
glyph's whole data source — `ColumnDataSource(plot_df)`, i.e. the row
index plus every column of the loaded dataset: for a three-column
dataset plotted with x = `t`, y = `v`, the artifact's columns are not
`[t, v]` and include the unplotted column `extra`. -/
theorem export_includes_all_source_columns :
    exportedCols ["t", "v", "extra"] = ["index", "t", "v", "extra"]
    ∧ exportedCols ["t", "v", "extra"] ≠ ["t", "v"]
    ∧ "extra" ∈ exportedCols ["t", "v", "extra"] := by
  decide

/-- C4 amended: the exported spreadsheet contains the plot's full data
source — the row index column followed by every column of the loaded
dataset. The plotted x and y-primary columns are among them, but so is
every other column (a secondary series adds nothing new, both glyphs
share this same source). -/
theorem export_columns_amended (dfCols : List String) (x y : String)
    (hx : x ∈ dfCols) (hy : y ∈ dfCols) :
    exportedCols dfCols = "index" :: dfCols
    ∧ x ∈ exportedCols dfCols
    ∧ y ∈ exportedCols dfCols
    ∧ ∀ col ∈ dfCols, col ∈ exportedCols dfCols :=
  ⟨rfl, List.mem_cons_of_mem _ hx, List.mem_cons_of_mem _ hy,
   fun _ hcol => List.mem_cons_of_mem _ hcol⟩

/-- C4 witness: concrete three-column export. -/
theorem export_columns_amended_witness :
    exportedCols ["t", "v", "extra"] = "index" :: ["t", "v", "extra"]
    ∧ "t" ∈ exportedCols ["t", "v", "extra"] :=
  ⟨(export_columns_amended ["t", "v", "extra"] "t" "v"
      (by decide) (by decide)).1,
   (export_columns_amended ["t", "v", "extra"] "t" "v"
      (by decide) (by decide)).2.1⟩

/-- C5: the export path is the deterministic `<ownerSessionId>_output.xlsx`;
each export removes any prior artifact at that path before writing, so
after any export exactly one file with the owner's artifact name is on
disk, and an immediate re-export leaves the directory unchanged — never
two coexisting artifacts for one owner. -/
theorem download_single_artifact (sessionId : String) (fs : Finset String) :
    ((download sessionId fs).filter
        (fun n => n = artifactName sessionId)).card = 1
    ∧ download sessionId (download sessionId fs) = download sessionId fs := by
  constructor
  · unfold download
    rw [Finset.filter_eq']
    simp
  · unfold download
    ext x
    simp only [Finset.mem_insert, Finset.mem_erase]
    tauto

/-- C6 counterexample: deletion is claimed to happen iff the name
matches the generated-artifact convention `<sid>_output.xlsx` and the
age exceeds 24 hours. The code's test is the broader suffix check
`endswith('output.xlsx')`: a 25-hour-old file named exactly
`output.xlsx` is deleted by a pass although no session id generates that
name. -/
theorem cleanup_deletes_nonconforming_name :
    delete_excess_xlsx 90000 [("output.xlsx", 0)] = []
    ∧ matchesArtifactConvention "output.xlsx" = false
    ∧ (24 : ℚ) < fileAge 90000 0 := by
  have hage : (24 : ℚ) < fileAge 90000 0 := by norm_num [fileAge]
  have hsd : shouldDelete 90000 ("output.xlsx", 0) = true := by
    unfold shouldDelete
    rw [Bool.and_eq_true]
    exact ⟨decide_eq_true hage, by decide⟩
  refine ⟨?_, by decide, hage⟩
  unfold delete_excess_xlsx
  simp [hsd]

/-- C6 amended: a cleanup pass deletes a file iff its last-access age
exceeds 24 hours and its name ends with `output.xlsx`; every generated
artifact name `<sid>_output.xlsx` has that suffix, so a younger file is
never deleted and an old generated artifact always is — but the suffix
test is broader than the generated-artifact naming convention. -/
theorem cleanup_retention_amended (now : Int) (files : List (String × Int))
    (f : String × Int) (hf : f ∈ files) :
    (f ∉ delete_excess_xlsx now files
      ↔ (24 < fileAge now f.2 ∧ pyEndsWith f.1 "output.xlsx" = true))
    ∧ (∀ sid, pyEndsWith (artifactName sid) "output.xlsx" = true) := by
  refine ⟨?_, artifactName_pyEndsWith⟩
  unfold delete_excess_xlsx
  rw [List.mem_filter]
  simp [hf, shouldDelete, Bool.and_eq_true, decide_eq_true_eq,
    Bool.not_eq_true']

/-- C6 witness: a 25-hour-old generated artifact is deleted by the
pass. -/
theorem cleanup_retention_amended_witness :
    (("a_output.xlsx", (0 : Int)) ∉
        delete_excess_xlsx 90000 [("a_output.xlsx", (0 : Int))]
      ↔ (24 < fileAge 90000 0
         ∧ pyEndsWith "a_output.xlsx" "output.xlsx" = true)) :=
  (cleanup_retention_amended 90000 [("a_output.xlsx", 0)]
    ("a_output.xlsx", 0) (List.mem_singleton.mpr rfl)).1

/-- C7 counterexample: the version token is claimed to alternate between
two fixed values, returning to its original value after two exports.
The code adds an independent random ±1 each time: with the valid draw
+1 twice, the token goes 0 → 1 → 2, not back to 0. -/
theorem flip_tag_random_walk_counterexample :
    ((1 : Int) = -1 ∨ (1 : Int) = 1)
    ∧ flipTag (flipTag 0 1) 1 = 2
    ∧ flipTag (flipTag 0 1) 1 ≠ 0 := by
  decide

/-- C7 amended: each export adds a random draw from the two-element set
-1, +1 to the token, so every export changes the token's value; two
consecutive exports restore the original exactly when the draws are
opposite, and same-sign draws move it further away — the token walks
over all integers rather than alternating between two fixed values. -/
theorem flip_tag_always_changes (tag delta : Int)
    (h : delta = -1 ∨ delta = 1) :
    flipTag tag delta ≠ tag
    ∧ flipTag (flipTag tag delta) (-delta) = tag
    ∧ flipTag (flipTag tag delta) delta ≠ tag := by
  unfold flipTag
  rcases h with h | h <;> subst h <;> omega

/-- C7 witness: the draw +1 changes the token 0, the opposite draw
restores it, a repeated draw does not. -/
theorem flip_tag_always_changes_witness :
    flipTag 0 1 ≠ 0
    ∧ flipTag (flipTag 0 1) (-1) = 0
    ∧ flipTag (flipTag 0 1) 1 ≠ 0 :=
  flip_tag_always_changes 0 1 (Or.inr rfl)

end Softfocus
